import Mathlib

/-!
Verification development for the `synapse` value-coercion library.

The repository contains two implementation lineages of the same exported
function `synapse(value, options)` (with `safesynapse` forcing
`strict: true`):

* `src/src/index.ts` — modelled below as `synapse1`; it tests the
  suspect-pattern regexes on the original (untrimmed) input, calls
  `JSON.parse` on the original input, has a dedicated fast path returning
  the text between a leading and a trailing quote verbatim, and performs a
  case-sensitive `KNOWN_VALUES` lookup.
* `src/unnamed/part_000` — modelled below as `synapse2`; it lowercases the
  trimmed input before the `KNOWN_VALUES` lookup, routes quote-initial
  inputs through `JSON.parse` of the trimmed text, tests the suspect
  patterns on the trimmed text and, on a successful structural parse,
  strips `__proto__`-named keys recursively with `cleanObject`.

JavaScript strings are modelled as Lean `String` (sequences of Unicode
scalar values); wherever the source measures `.length` or indexes by
UTF-16 code units the model uses the explicit UTF-16 unit count
`utf16LenL`, so the branch guards agree with the JavaScript semantics
(see the comments at `firstCharIs` / `lastCharIs`).
-/

/-- JavaScript number results distinguished by the claims: the `NaN` and
infinity sentinels from the known-literal table, and finite numbers
produced by `JSON.parse`, kept as their numeric-literal text (no claim
inspects a finite numeric value). -/
inductive JsNumber where
  | nan
  | posInf
  | negInf
  | finite (lexeme : String)
deriving DecidableEq

/-- JavaScript values flowing in and out of `synapse`: `undefV` is
`undefined`, `nullV` is `null` (produced by `JSON.parse`), and `arrV` /
`objV` are the parsed JSON structures (object fields in property order). -/
inductive JsValue where
  | undefV
  | nullV
  | boolV (b : Bool)
  | numV (n : JsNumber)
  | strV (s : String)
  | bigIntV (i : Int)
  | arrV (items : List JsValue)
  | objV (fields : List (String × JsValue))

/-- The `Options` record: one recognized flag `strict`, default `false`
(an absent field behaves as `false` in every truthiness test). -/
structure Options where
  strict : Bool := false

/-- Errors thrown in strict mode, by message:
`protoPollution` is `Error("[synapse] Possible prototype pollution")`,
`invalidJson` is `SyntaxError("[synapse] Invalid JSON")`,
`invalidBigInt` is ``SyntaxError(`[synapse] Invalid BigInt: ...`)``,
`parseError` is the underlying `JSON.parse` SyntaxError rethrown. -/
inductive JsErr where
  | protoPollution
  | invalidJson
  | invalidBigInt (text : String)
  | parseError
deriving DecidableEq

/-- The left-brace character, written by code point. -/
def lbrace : Char := Char.ofNat 123

/-- The right-brace character, written by code point. -/
def rbrace : Char := Char.ofNat 125

/-- The ECMAScript WhiteSpace ∪ LineTerminator set: what both
`String.prototype.trim` and the regex class `\s` recognize. -/
def jsWsChar (c : Char) : Bool :=
  let n := c.toNat
  n == 0x9 || n == 0xA || n == 0xB || n == 0xC || n == 0xD || n == 0x20 ||
  n == 0xA0 || n == 0x1680 || (0x2000 ≤ n && n ≤ 0x200A) || n == 0x2028 ||
  n == 0x2029 || n == 0x202F || n == 0x205F || n == 0xFEFF

/-- `value.trim()`: strip leading and trailing JS whitespace. -/
def jsTrim (s : String) : String :=
  ⟨(((s.data.dropWhile jsWsChar).reverse).dropWhile jsWsChar).reverse⟩

/-- UTF-16 length of a character list: astral code points count as two
units, exactly the JavaScript `.length` of the corresponding string. -/
def utf16LenL : List Char → Nat
  | [] => 0
  | c :: cs => (if 0x10000 ≤ c.toNat then 2 else 1) + utf16LenL cs

/-- `_value.codePointAt(0) === c` for a BMP character `c`: the first code
point equals `c` exactly when the first character does (an astral first
character yields a code point ≥ 0x10000, never equal to a BMP `c`).
The same models `_value[0] === "c"` (a surrogate half never equals a BMP
one-character string). -/
def firstCharIs (t : String) (c : Char) : Bool :=
  t.data.head? == some c

/-- `_value.codePointAt(len - 1) === c` for a BMP character `c`, and also
`_value.endsWith(c)`: if the last character is astral, position `len - 1`
holds its low surrogate (0xDC00–0xDFFF), never equal to a BMP `c`; if the
last character is in the BMP, position `len - 1` holds exactly it. -/
def lastCharIs (t : String) (c : Char) : Bool :=
  t.data.getLast? == some c

/-- `_value[1] === c` under the guard `len === 2` (both characters are
then BMP, so unit index 1 is the second character). -/
def secondCharIs (t : String) (c : Char) : Bool :=
  (t.data.drop 1).head? == some c

/-- `typeof v === "undefined"`. -/
def isUndef : JsValue → Bool
  | .undefV => true
  | _ => false

/-- `KNOWN_VALUES.get(s)`, with `Map.get`'s `undefined`-on-miss folded in:
the table maps `"null"` and `"undefined"` to the value `undefined`, which
`get` returns for a missing key as well — the two outcomes are
indistinguishable to the callers, which is precisely the behavior the
source relies on (and trips over, see `c4` below). -/
def knownGet (s : String) : JsValue :=
  if s == "true" then .boolV true
  else if s == "false" then .boolV false
  else if s == "null" then .undefV
  else if s == "undefined" then .undefV
  else if s == "NaN" then .numV .nan
  else if s == "Infinity" then .numV .posInf
  else if s == "-Infinity" then .numV .negInf
  else .undefV

/-- ASCII `0`–`9`, the regex class `\d`. -/
def isDig (c : Char) : Bool := '0' ≤ c && c ≤ '9'

/-- `_value.toLowerCase()` restricted to the ASCII simple case mappings;
the table keys compared against the result are all ASCII, and no
non-ASCII uppercase character lowercases onto any of them. -/
def asciiToLower (t : String) : String :=
  ⟨t.data.map (fun c => if 'A' ≤ c && c ≤ 'Z' then Char.ofNat (c.toNat + 32) else c)⟩

/-- Helper for `BIGINT_REGEX`: one or more digits followed by exactly a
final `n` or `N`. -/
def digitsThenN (l : List Char) : Bool :=
  let p := l.span isDig
  !p.1.isEmpty && (p.2 == ['n'] || p.2 == ['N'])

/-- `BIGINT_REGEX = /^-?\d+n$/i` applied with `.test`. -/
def bigintTest : List Char → Bool
  | '-' :: rest => digitsThenN rest
  | l => digitsThenN l

/-- `leadingDigitRegex = /^\s*-?\d/` applied with `.test`. -/
def leadingDigit (l : List Char) : Bool :=
  match l.dropWhile jsWsChar with
  | [] => false
  | c :: rest =>
    if c == '-' then
      match rest with
      | d :: _ => isDig d
      | [] => false
    else isDig c

/-- Accumulating decimal-digit reader for `BigInt(text)`. -/
def digitsToNatAux (acc : Nat) : List Char → Nat
  | [] => acc
  | c :: rest => digitsToNatAux (acc * 10 + (c.toNat - 48)) rest

/-- `BigInt(text)` on text of the shape `-?\d+` (the only shape the
sources feed it); on such text the conversion always succeeds, so the
surrounding `try`/`catch` in both sources is unreachable. -/
def parseBigIntStr : List Char → Int
  | '-' :: ds => -(digitsToNatAux 0 ds : Nat)
  | ds => (digitsToNatAux 0 ds : Nat)

/-- Consume one expected character. -/
def expectCh (c : Char) : List Char → Option (List Char)
  | x :: rest => if x == c then some rest else none
  | [] => none

/-- Consume one regex alternation of the form `(?:L|\\u00DY)` where `L`
is the literal character, `D` the third hex digit and `Y` ranges over
`d4s` (one letter, or both its cases where the regex has a class like
`[Ff]`). The two branches start with distinct characters, so the
alternation is deterministic. -/
def tokCE (lit : Char) (d3 : Char) (d4s : List Char) : List Char → Option (List Char)
  | [] => none
  | x :: rest =>
    if x == lit then some rest
    else if x == '\\' then
      match rest with
      | 'u' :: '0' :: '0' :: a :: b :: rest2 =>
        if a == d3 && d4s.contains b then some rest2 else none
      | _ => none
    else none

/-- The tail of `suspectProtoRx` after its opening quote:
`(?:_|\\u0{2}5[Ff]){2}(?:p|\\u0{2}70)(?:r|\\u0{2}72)(?:o|\\u0{2}6[Ff])`
`(?:t|\\u0{2}74)(?:o|\\u0{2}6[Ff])(?:_|\\u0{2}5[Ff]){2}"\s*:`. -/
def protoTail (l : List Char) : Option Unit := do
  let r1 ← tokCE '_' '5' ['f', 'F'] l
  let r2 ← tokCE '_' '5' ['f', 'F'] r1
  let r3 ← tokCE 'p' '7' ['0'] r2
  let r4 ← tokCE 'r' '7' ['2'] r3
  let r5 ← tokCE 'o' '6' ['f', 'F'] r4
  let r6 ← tokCE 't' '7' ['4'] r5
  let r7 ← tokCE 'o' '6' ['f', 'F'] r6
  let r8 ← tokCE '_' '5' ['f', 'F'] r7
  let r9 ← tokCE '_' '5' ['f', 'F'] r8
  let rA ← expectCh '"' r9
  let _ ← expectCh ':' (rA.dropWhile jsWsChar)
  pure ()

/-- Does `suspectProtoRx` match starting at this position? -/
def protoMatchAt (l : List Char) : Bool :=
  match expectCh '"' l with
  | some r => (protoTail r).isSome
  | none => false

/-- Unanchored regex `.test`: does the pattern match at some position? -/
def searchFrom (p : List Char → Bool) : List Char → Bool
  | [] => p []
  | c :: rest => p (c :: rest) || searchFrom p rest

/-- `suspectProtoRx.test(s)`. -/
def suspectProtoTest (s : String) : Bool :=
  searchFrom protoMatchAt s.data

/-- The tail of `suspectConstructorRx` after its opening quote:
`(?:c|\\u0063)(?:o|\\u006[Ff])(?:n|\\u006[Ee])(?:s|\\u0073)(?:t|\\u0074)`
`(?:r|\\u0072)(?:u|\\u0075)(?:c|\\u0063)(?:t|\\u0074)(?:o|\\u006[Ff])`
`(?:r|\\u0072)"\s*:`. -/
def constructorTail (l : List Char) : Option Unit := do
  let r1 ← tokCE 'c' '6' ['3'] l
  let r2 ← tokCE 'o' '6' ['f', 'F'] r1
  let r3 ← tokCE 'n' '6' ['e', 'E'] r2
  let r4 ← tokCE 's' '7' ['3'] r3
  let r5 ← tokCE 't' '7' ['4'] r4
  let r6 ← tokCE 'r' '7' ['2'] r5
  let r7 ← tokCE 'u' '7' ['5'] r6
  let r8 ← tokCE 'c' '6' ['3'] r7
  let r9 ← tokCE 't' '7' ['4'] r8
  let rA ← tokCE 'o' '6' ['f', 'F'] r9
  let rB ← tokCE 'r' '7' ['2'] rA
  let rC ← expectCh '"' rB
  let _ ← expectCh ':' (rC.dropWhile jsWsChar)
  pure ()

/-- Does `suspectConstructorRx` match starting at this position? -/
def constructorMatchAt (l : List Char) : Bool :=
  match expectCh '"' l with
  | some r => (constructorTail r).isSome
  | none => false

/-- `suspectConstructorRx.test(s)`. -/
def suspectConstructorTest (s : String) : Bool :=
  searchFrom constructorMatchAt s.data

/-- `checkPrototypePollution` of `src/unnamed/part_000`. -/
def checkPrototypePollution (s : String) : Bool :=
  suspectProtoTest s || suspectConstructorTest s

/-- JSON whitespace (as accepted by `JSON.parse`): space, tab, LF, CR —
deliberately smaller than the `\s` / `trim` set `jsWsChar`. -/
def jsonWsChar (c : Char) : Bool :=
  c == ' ' || c == '\t' || c == '\n' || c == '\r'

/-- Skip JSON whitespace. -/
def skipJsonWs (l : List Char) : List Char :=
  l.dropWhile jsonWsChar

/-- Value of one hexadecimal digit. -/
def hexDigitVal (c : Char) : Option Nat :=
  if '0' ≤ c && c ≤ '9' then some (c.toNat - 48)
  else if 'a' ≤ c && c ≤ 'f' then some (c.toNat - 87)
  else if 'A' ≤ c && c ≤ 'F' then some (c.toNat - 55)
  else none

/-- Value of a 4-hex-digit escape payload. -/
def hex4 (a b c d : Char) : Option Nat := do
  let x1 ← hexDigitVal a
  let x2 ← hexDigitVal b
  let x3 ← hexDigitVal c
  let x4 ← hexDigitVal d
  pure (((x1 * 16 + x2) * 16 + x3) * 16 + x4)

/-- Stand-in for a lone UTF-16 surrogate produced by a `\uXXXX` escape:
JavaScript strings can hold lone surrogates but Lean characters cannot,
so the model substitutes U+FFFD. No claim exercises lone surrogates. -/
def loneSurrogate : Char := Char.ofNat 0xFFFD

/-- Map of the single-character escapes of JSON strings. -/
def escMap (e : Char) : Option Char :=
  if e == '"' then some '"'
  else if e == '\\' then some '\\'
  else if e == '/' then some '/'
  else if e == 'b' then some (Char.ofNat 8)
  else if e == 'f' then some (Char.ofNat 12)
  else if e == 'n' then some (Char.ofNat 10)
  else if e == 'r' then some (Char.ofNat 13)
  else if e == 't' then some (Char.ofNat 9)
  else none

/-- Body of a JSON string after the opening quote: returns the decoded
characters and the input following the closing quote. Escape sequences
are decoded (a surrogate `\uXXXX` pair combines into one code point);
raw control characters below 0x20 are rejected, as `JSON.parse` does.
The fuel argument only serves termination: every recursive call consumes
at least one input character, so the `length + 1` passed by the callers
never runs out before the input does. -/
def parseStringBody : Nat → List Char → Option (List Char × List Char)
  | 0, _ => none
  | _, [] => none
  | fuel + 1, c :: rest =>
    if c == '"' then some ([], rest)
    else if c == '\\' then
      match rest with
      | [] => none
      | e :: rest2 =>
        if e == 'u' then
          match rest2 with
          | a :: b :: c2 :: d :: rest3 =>
            match hex4 a b c2 d with
            | none => none
            | some n =>
              if 0xD800 ≤ n && n ≤ 0xDBFF then
                match rest3 with
                | '\\' :: 'u' :: a2 :: b2 :: c3 :: d2 :: rest4 =>
                  match hex4 a2 b2 c3 d2 with
                  | some m =>
                    if 0xDC00 ≤ m && m ≤ 0xDFFF then do
                      let p ← parseStringBody fuel rest4
                      pure (Char.ofNat (0x10000 + (n - 0xD800) * 0x400 + (m - 0xDC00)) :: p.1, p.2)
                    else do
                      let p ← parseStringBody fuel rest3
                      pure (loneSurrogate :: p.1, p.2)
                  | none => do
                    let p ← parseStringBody fuel rest3
                    pure (loneSurrogate :: p.1, p.2)
                | _ => do
                  let p ← parseStringBody fuel rest3
                  pure (loneSurrogate :: p.1, p.2)
              else if 0xDC00 ≤ n && n ≤ 0xDFFF then do
                let p ← parseStringBody fuel rest3
                pure (loneSurrogate :: p.1, p.2)
              else do
                let p ← parseStringBody fuel rest3
                pure (Char.ofNat n :: p.1, p.2)
          | _ => none
        else
          match escMap e with
          | some ec => do
            let p ← parseStringBody fuel rest2
            pure (ec :: p.1, p.2)
          | none => none
    else if c.toNat < 0x20 then none
    else do
      let p ← parseStringBody fuel rest
      pure (c :: p.1, p.2)

/-- A JSON numeric literal: `-?(0|[1-9][0-9]*)(\.[0-9]+)?([eE][+-]?[0-9]+)?`.
Returns the lexeme and the rest of the input; a malformed tail (such as a
dot without digits) is left unconsumed for the caller to reject. -/
def parseNumberTok (l : List Char) : Option (List Char × List Char) :=
  let sp := match l with
    | '-' :: r => ((['-'] : List Char), r)
    | _ => (([] : List Char), l)
  match sp.2 with
  | [] => none
  | c :: _ =>
    if !(isDig c) then none
    else
      let ip := if c == '0' then ((['0'] : List Char), sp.2.drop 1) else sp.2.span isDig
      let fp := match ip.2 with
        | '.' :: r =>
          let ds := r.span isDig
          if ds.1.isEmpty then (([] : List Char), ip.2) else ('.' :: ds.1, ds.2)
        | _ => (([] : List Char), ip.2)
      let ep := match fp.2 with
        | e :: r =>
          if e == 'e' || e == 'E' then
            let sg := match r with
              | c2 :: rr => if c2 == '+' || c2 == '-' then (([c2] : List Char), rr) else (([] : List Char), r)
              | [] => (([] : List Char), r)
            let ds := sg.2.span isDig
            if ds.1.isEmpty then (([] : List Char), fp.2) else (e :: (sg.1 ++ ds.1), ds.2)
          else (([] : List Char), fp.2)
        | [] => (([] : List Char), fp.2)
      some (sp.1 ++ ip.1 ++ fp.1 ++ ep.1, ep.2)

/-- Property definition order of `JSON.parse`: a repeated key overwrites
the earlier value in place (first-occurrence position, last value). -/
def insertField (fs : List (String × JsValue)) (k : String) (v : JsValue) :
    List (String × JsValue) :=
  if fs.any (fun p => p.1 == k) then fs.map (fun p => if p.1 == k then (k, v) else p)
  else fs ++ [(k, v)]

mutual

/-- One JSON value (leading whitespace allowed), returning the rest of
the input. The fuel argument dominates the recursion; `jsonParse` passes
`4 * length + 8`, which every grammar derivation of the input is well
under, since each recursive call is charged at most two fuel units per
input character consumed. -/
def parseValue : Nat → List Char → Option (JsValue × List Char)
  | 0, _ => none
  | fuel + 1, cs =>
    match skipJsonWs cs with
    | [] => none
    | c :: rest =>
      if c == '"' then
        match parseStringBody (rest.length + 1) rest with
        | some p => some (.strV ⟨p.1⟩, p.2)
        | none => none
      else if c == lbrace then
        match skipJsonWs rest with
        | x :: r3 =>
          if x == rbrace then some (.objV [], r3)
          else parseObjFields fuel (skipJsonWs rest) []
        | [] => none
      else if c == '[' then
        match skipJsonWs rest with
        | x :: r3 =>
          if x == ']' then some (.arrV [], r3)
          else parseArrayItems fuel (skipJsonWs rest) []
        | [] => none
      else if c == 't' then
        match rest with
        | 'r' :: 'u' :: 'e' :: r => some (.boolV true, r)
        | _ => none
      else if c == 'f' then
        match rest with
        | 'a' :: 'l' :: 's' :: 'e' :: r => some (.boolV false, r)
        | _ => none
      else if c == 'n' then
        match rest with
        | 'u' :: 'l' :: 'l' :: r => some (.nullV, r)
        | _ => none
      else if c == '-' || isDig c then
        match parseNumberTok (c :: rest) with
        | some p => some (.numV (.finite ⟨p.1⟩), p.2)
        | none => none
      else none

/-- Elements of a non-empty JSON array after `[`. -/
def parseArrayItems : Nat → List Char → List JsValue → Option (JsValue × List Char)
  | 0, _, _ => none
  | fuel + 1, cs, acc =>
    match parseValue fuel cs with
    | none => none
    | some p =>
      match skipJsonWs p.2 with
      | x :: r2 =>
        if x == ',' then parseArrayItems fuel r2 (acc ++ [p.1])
        else if x == ']' then some (.arrV (acc ++ [p.1]), r2)
        else none
      | [] => none

/-- Members of a non-empty JSON object after the opening brace. -/
def parseObjFields : Nat → List Char → List (String × JsValue) → Option (JsValue × List Char)
  | 0, _, _ => none
  | fuel + 1, cs, acc =>
    match skipJsonWs cs with
    | x :: r1 =>
      if x == '"' then
        match parseStringBody (r1.length + 1) r1 with
        | some kp =>
          match skipJsonWs kp.2 with
          | y :: r3 =>
            if y == ':' then
              match parseValue fuel r3 with
              | some vp =>
                match skipJsonWs vp.2 with
                | z :: r5 =>
                  if z == ',' then parseObjFields fuel r5 (insertField acc ⟨kp.1⟩ vp.1)
                  else if z == rbrace then some (.objV (insertField acc ⟨kp.1⟩ vp.1), r5)
                  else none
                | [] => none
              | none => none
            else none
          | [] => none
        | none => none
      else none
    | [] => none

end

/-- `JSON.parse(s)`: one value, then only whitespace to the end of the
input; `none` models a thrown `SyntaxError`. -/
def jsonParse (s : String) : Option JsValue :=
  match parseValue (4 * s.data.length + 8) s.data with
  | some p => if (skipJsonWs p.2).isEmpty then some p.1 else none
  | none => none

mutual

/-- `cleanObject` of `src/unnamed/part_000`: non-objects (including
`null`) are returned as-is, arrays are mapped element-wise, and objects
are rebuilt key-wise skipping any key literally named `__proto__`.
JavaScript would additionally float integer-like keys to the front of the
rebuilt object's property order; no claim depends on key order, and the
model keeps the source order. -/
def cleanObject : JsValue → JsValue
  | .arrV xs => .arrV (cleanList xs)
  | .objV fs => .objV (cleanFields fs)
  | v => v

/-- Element-wise walk of `cleanObject` over an array. -/
def cleanList : List JsValue → List JsValue
  | [] => []
  | x :: xs => cleanObject x :: cleanList xs

/-- Key-wise walk of `cleanObject` over object fields. -/
def cleanFields : List (String × JsValue) → List (String × JsValue)
  | [] => []
  | (k, v) :: fs =>
    if k == "__proto__" then cleanFields fs
    else (k, cleanObject v) :: cleanFields fs

end

/-- Guard of the known-literal branch of `src/src/index.ts`:
`len <= 10` and `KNOWN_VALUES.get(_value) !== undefined` (case-sensitive
lookup of the trimmed text itself). -/
def knownCond1 (t : String) : Bool :=
  utf16LenL t.data ≤ 10 && !(isUndef (knownGet t))

/-- Guard of the known-literal branch of `src/unnamed/part_000`:
`len <= 10` and (`KNOWN_VALUES.get(lowerValue) !== undefined` or
`lowerValue === "null"` or `lowerValue === "undefined"`). -/
def knownCond2 (t : String) : Bool :=
  utf16LenL t.data ≤ 10 &&
    (!(isUndef (knownGet (asciiToLower t))) || asciiToLower t == "null" ||
      asciiToLower t == "undefined")

/-- Guard of the structural-JSON branch, shared by both lineages: first
significant character `[`, `{` or `"`, or a leading optional-minus-digit. -/
def structCond (t : String) : Bool :=
  firstCharIs t '[' || firstCharIs t lbrace || firstCharIs t '"' || leadingDigit t.data

/-- `synapse` of `src/src/index.ts`. A thrown error is `.error`; the
`try`/`catch` around the structural branch rethrows in strict mode (so a
detected pollution pattern surfaces as `protoPollution` and a parse
failure as the parser's own error) and falls back to the original input
otherwise. `BigInt` on text matched by `BIGINT_REGEX` cannot throw, so
the bigint branch's strict-mode `Invalid BigInt` error is unreachable. -/
def synapse1 (value : JsValue) (options : Options) : Except JsErr JsValue :=
  match value with
  | .strV s =>
    let t := jsTrim s
    if knownCond1 t then .ok (knownGet t)
    else if utf16LenL t.data == 2 && firstCharIs t '"' then .ok (.strV "")
    else if firstCharIs t '"' && lastCharIs t '"' then
      .ok (.strV ⟨(t.data.drop 1).dropLast⟩)
    else if bigintTest t.data then .ok (.bigIntV (parseBigIntStr t.data.dropLast))
    else if structCond t then
      if options.strict && (suspectProtoTest s || suspectConstructorTest s) then
        .error .protoPollution
      else
        match jsonParse s with
        | some j => .ok j
        | none => if options.strict then .error .parseError else .ok (.strV s)
    else if options.strict then .error .invalidJson
    else .ok (.strV s)
  | v => .ok v

/-- `synapse` of `src/unnamed/part_000`. Differences from `synapse1`:
lowercased table lookup with an explicit `null`/`undefined` escape hatch,
a quote-initial branch that JSON-parses the trimmed text (wrapping a
parse failure as `Invalid JSON` in strict mode), pollution patterns
tested on the trimmed text (the lenient-mode `console.warn` side effect
is not modelled), and `cleanObject` applied to a successful structural
parse. -/
def synapse2 (value : JsValue) (options : Options) : Except JsErr JsValue :=
  match value with
  | .strV s =>
    let t := jsTrim s
    if knownCond2 t then .ok (knownGet (asciiToLower t))
    else if firstCharIs t '"' then
      if options.strict && (!(lastCharIs t '"') || utf16LenL t.data < 2) then
        .error .invalidJson
      else if utf16LenL t.data == 2 && secondCharIs t '"' then .ok (.strV "")
      else
        match jsonParse t with
        | some j => .ok j
        | none => if options.strict then .error .invalidJson else .ok (.strV s)
    else if bigintTest t.data then .ok (.bigIntV (parseBigIntStr t.data.dropLast))
    else if structCond t then
      if checkPrototypePollution t && options.strict then .error .protoPollution
      else
        match jsonParse t with
        | some j => .ok (cleanObject j)
        | none => if options.strict then .error .parseError else .ok (.strV s)
    else if options.strict then .error .invalidJson
    else .ok (.strV s)
  | v => .ok v

/-- `safesynapse` of `src/src/index.ts`: force `strict: true`. -/
def safesynapse1 (value : JsValue) (options : Options) : Except JsErr JsValue :=
  synapse1 value { options with strict := true }

/-- `safesynapse` of `src/unnamed/part_000`: force `strict: true`. -/
def safesynapse2 (value : JsValue) (options : Options) : Except JsErr JsValue :=
  synapse2 value { options with strict := true }

/-- The input reaches the structural-JSON branch of `synapse1`: every
earlier branch guard is false and the structural guard holds. -/
def reachesStructural1 (s : String) : Bool :=
  !knownCond1 (jsTrim s) &&
  !(utf16LenL (jsTrim s).data == 2 && firstCharIs (jsTrim s) '"') &&
  !(firstCharIs (jsTrim s) '"' && lastCharIs (jsTrim s) '"') &&
  !bigintTest (jsTrim s).data &&
  structCond (jsTrim s)

/-- No branch of `synapse1` matches the input: the final fallback runs. -/
def noBranch1 (s : String) : Bool :=
  !knownCond1 (jsTrim s) &&
  !(utf16LenL (jsTrim s).data == 2 && firstCharIs (jsTrim s) '"') &&
  !(firstCharIs (jsTrim s) '"' && lastCharIs (jsTrim s) '"') &&
  !bigintTest (jsTrim s).data &&
  !structCond (jsTrim s)

/-- The input reaches the structural-JSON branch of `synapse2`. -/
def reachesStructural2 (s : String) : Bool :=
  !knownCond2 (jsTrim s) &&
  !firstCharIs (jsTrim s) '"' &&
  !bigintTest (jsTrim s).data &&
  structCond (jsTrim s)

/-- The input reaches the `JSON.parse` call inside the quote-initial
branch of `synapse2` (not the empty-string fast path). -/
def quoteParsePath2 (s : String) : Bool :=
  !knownCond2 (jsTrim s) &&
  firstCharIs (jsTrim s) '"' &&
  !(utf16LenL (jsTrim s).data == 2 && secondCharIs (jsTrim s) '"')

/-- No branch of `synapse2` matches the input: the final fallback runs. -/
def noBranch2 (s : String) : Bool :=
  !knownCond2 (jsTrim s) &&
  !firstCharIs (jsTrim s) '"' &&
  !bigintTest (jsTrim s).data &&
  !structCond (jsTrim s)

mutual

/-- No object key literally named `__proto__` occurs anywhere in the
value (arrays walked element-wise, objects key-wise). -/
def noProtoV : JsValue → Bool
  | .arrV xs => noProtoL xs
  | .objV fs => noProtoF fs
  | _ => true

/-- `noProtoV` over array elements. -/
def noProtoL : List JsValue → Bool
  | [] => true
  | x :: xs => noProtoV x && noProtoL xs

/-- `noProtoV` over object fields. -/
def noProtoF : List (String × JsValue) → Bool
  | [] => true
  | (k, v) :: fs => !(k == "__proto__") && noProtoV v && noProtoF fs

end

/-- A string starting with a quote differs from any string that does not. -/
theorem str_beq_false (t k : String) (hk : k.data.head? ≠ some '"')
    (h : t.data.head? = some '"') : (t == k) = false := by
  cases hb : t == k
  · rfl
  · have he := eq_of_beq hb
    subst he
    exact absurd h hk

/-- A quote-initial string misses every key of the known-literal table. -/
theorem knownGet_quote (t : String) (h : t.data.head? = some '"') :
    knownGet t = .undefV := by
  simp [knownGet, str_beq_false t "true" (by decide) h,
    str_beq_false t "false" (by decide) h, str_beq_false t "null" (by decide) h,
    str_beq_false t "undefined" (by decide) h, str_beq_false t "NaN" (by decide) h,
    str_beq_false t "Infinity" (by decide) h,
    str_beq_false t "-Infinity" (by decide) h]

/-- UTF-16 length distributes over append. -/
theorem utf16LenL_append (a b : List Char) :
    utf16LenL (a ++ b) = utf16LenL a + utf16LenL b := by
  induction a with
  | nil => simp [utf16LenL]
  | cons c cs ih => simp [utf16LenL, ih]; omega

/-- A nonempty character list has positive UTF-16 length. -/
theorem utf16LenL_pos (l : List Char) (h : l ≠ []) : 1 ≤ utf16LenL l := by
  cases l with
  | nil => exact absurd rfl h
  | cons c cs => simp only [utf16LenL]; split <;> omega

mutual

/-- `cleanObject` leaves no `__proto__` key at any depth. -/
theorem noProtoV_clean : (v : JsValue) → noProtoV (cleanObject v) = true
  | .undefV => rfl
  | .nullV => rfl
  | .boolV _ => rfl
  | .numV _ => rfl
  | .strV _ => rfl
  | .bigIntV _ => rfl
  | .arrV xs => by
    have h := noProtoL_clean xs
    simp [cleanObject, noProtoV, h]
  | .objV fs => by
    have h := noProtoF_clean fs
    simp [cleanObject, noProtoV, h]

/-- `cleanList` leaves no `__proto__` key at any depth. -/
theorem noProtoL_clean : (l : List JsValue) → noProtoL (cleanList l) = true
  | [] => rfl
  | x :: xs => by
    have h1 := noProtoV_clean x
    have h2 := noProtoL_clean xs
    simp [cleanList, noProtoL, h1, h2]

/-- `cleanFields` leaves no `__proto__` key at any depth. -/
theorem noProtoF_clean : (l : List (String × JsValue)) → noProtoF (cleanFields l) = true
  | [] => rfl
  | (k, v) :: fs => by
    have h1 := noProtoV_clean v
    have h2 := noProtoF_clean fs
    by_cases hk : (k == "__proto__") = true
    · simp [cleanFields, hk, h2]
    · simp only [Bool.not_eq_true] at hk
      simp [cleanFields, hk, noProtoF, h1, h2]

end

/-- `cleanFields` is exactly: drop the `__proto__` entries, clean the
retained values, preserving keys and order. -/
theorem cleanFields_eq_filter (fs : List (String × JsValue)) :
    cleanFields fs =
      (fs.filter (fun kv => !(kv.1 == "__proto__"))).map
        (fun kv => (kv.1, cleanObject kv.2)) := by
  induction fs with
  | nil => rfl
  | cons kv fs ih =>
    obtain ⟨k, v⟩ := kv
    by_cases hk : (k == "__proto__") = true
    · simp [cleanFields, List.filter_cons, hk, ih]
    · simp only [Bool.not_eq_true] at hk
      simp [cleanFields, List.filter_cons, hk, ih]

/-- With `strict` false, every branch of `synapse1` returns a value. -/
theorem synapse1_lenient_isOk (v : JsValue) :
    (synapse1 v { strict := false }).isOk = true := by
  cases v with
  | strV s =>
    simp only [synapse1]
    repeat' split
    all_goals first
    | rfl
    | simp_all
  | undefV => rfl
  | nullV => rfl
  | boolV b => rfl
  | numV n => rfl
  | bigIntV i => rfl
  | arrV xs => rfl
  | objV fs => rfl

/-- With `strict` false, every branch of `synapse2` returns a value. -/
theorem synapse2_lenient_isOk (v : JsValue) :
    (synapse2 v { strict := false }).isOk = true := by
  cases v with
  | strV s =>
    simp only [synapse2]
    repeat' split
    all_goals first
    | rfl
    | simp_all
  | undefV => rfl
  | nullV => rfl
  | boolV b => rfl
  | numV n => rfl
  | bigIntV i => rfl
  | arrV xs => rfl
  | objV fs => rfl

/-- Lenient `synapse1` returns the original string from the fallback. -/
theorem synapse1_noBranch (s : String) (h : noBranch1 s = true) :
    synapse1 (.strV s) { strict := false } = .ok (.strV s) := by
  simp only [noBranch1, Bool.and_eq_true, Bool.not_eq_true'] at h
  obtain ⟨⟨⟨⟨h1, h2⟩, h3⟩, h4⟩, h5⟩ := h
  simp [synapse1, h1, h2, h3, h4, h5]

/-- Lenient `synapse1` returns the original string when the structural
branch fails to parse. -/
theorem synapse1_structFail (s : String) (h : reachesStructural1 s = true)
    (hp : jsonParse s = none) :
    synapse1 (.strV s) { strict := false } = .ok (.strV s) := by
  simp only [reachesStructural1, Bool.and_eq_true, Bool.not_eq_true'] at h
  obtain ⟨⟨⟨⟨h1, h2⟩, h3⟩, h4⟩, h5⟩ := h
  simp [synapse1, h1, h2, h3, h4, h5, hp]

/-- Lenient `synapse2` returns the original string from the fallback. -/
theorem synapse2_noBranch (s : String) (h : noBranch2 s = true) :
    synapse2 (.strV s) { strict := false } = .ok (.strV s) := by
  simp only [noBranch2, Bool.and_eq_true, Bool.not_eq_true'] at h
  obtain ⟨⟨⟨h1, h2⟩, h3⟩, h4⟩ := h
  simp [synapse2, h1, h2, h3, h4]

/-- Lenient `synapse2` returns the original string when the structural
branch fails to parse. -/
theorem synapse2_structFail (s : String) (h : reachesStructural2 s = true)
    (hp : jsonParse (jsTrim s) = none) :
    synapse2 (.strV s) { strict := false } = .ok (.strV s) := by
  simp only [reachesStructural2, Bool.and_eq_true, Bool.not_eq_true'] at h
  obtain ⟨⟨⟨h1, h2⟩, h3⟩, h4⟩ := h
  simp [synapse2, h1, h2, h3, h4, hp]

/-- Lenient `synapse2` returns the original string when the quote-initial
branch fails to parse. -/
theorem synapse2_quoteFail (s : String) (h : quoteParsePath2 s = true)
    (hp : jsonParse (jsTrim s) = none) :
    synapse2 (.strV s) { strict := false } = .ok (.strV s) := by
  simp only [quoteParsePath2, Bool.and_eq_true, Bool.not_eq_true'] at h
  obtain ⟨⟨h1, h2⟩, h3⟩ := h
  simp [synapse2, h1, h2, h3, hp]

/-- A successful lenient structural parse in `synapse2` returns the
`cleanObject`-stripped structure. -/
theorem synapse2_structOk (s : String) (j : JsValue) (h : reachesStructural2 s = true)
    (hp : jsonParse (jsTrim s) = some j) :
    synapse2 (.strV s) { strict := false } = .ok (cleanObject j) := by
  simp only [reachesStructural2, Bool.and_eq_true, Bool.not_eq_true'] at h
  obtain ⟨⟨⟨h1, h2⟩, h3⟩, h4⟩ := h
  simp [synapse2, h1, h2, h3, h4, hp]

/-- Strict `synapse1` raises the pollution error whenever the structural
branch is reached and either suspect pattern matches the original input,
independently of whether the input would parse. -/
theorem synapse1_strictPollution (s : String) (h : reachesStructural1 s = true)
    (hsus : (suspectProtoTest s || suspectConstructorTest s) = true) :
    synapse1 (.strV s) { strict := true } = .error .protoPollution := by
  simp only [reachesStructural1, Bool.and_eq_true, Bool.not_eq_true'] at h
  obtain ⟨⟨⟨⟨h1, h2⟩, h3⟩, h4⟩, h5⟩ := h
  simp [synapse1, h1, h2, h3, h4, h5, hsus]

/-- Strict `synapse2` raises the pollution error whenever the structural
branch is reached and `checkPrototypePollution` matches the trimmed
input, independently of whether the input would parse. -/
theorem synapse2_strictPollution (s : String) (h : reachesStructural2 s = true)
    (hsus : checkPrototypePollution (jsTrim s) = true) :
    synapse2 (.strV s) { strict := true } = .error .protoPollution := by
  simp only [reachesStructural2, Bool.and_eq_true, Bool.not_eq_true'] at h
  obtain ⟨⟨⟨h1, h2⟩, h3⟩, h4⟩ := h
  simp [synapse2, h1, h2, h3, h4, hsus]

/-- Claim C1, counterexample: in `src/src/index.ts` (which has no
`cleanObject`), the lenient structural branch returns the parsed
structure with its `__proto__` key intact, so the coercion of
`'{"__proto__":{"polluted":true},"a":1}'` is a mapping that still
contains an object key literally named `__proto__`. -/
theorem c1_index_keeps_proto :
    synapse1 (.strV "\x7b\"__proto__\":\x7b\"polluted\":true\x7d,\"a\":1\x7d")
        { strict := false } =
      .ok (.objV [("__proto__", .objV [("polluted", .boolV true)]),
        ("a", .numV (.finite "1"))]) ∧
    noProtoV (.objV [("__proto__", .objV [("polluted", .boolV true)]),
      ("a", .numV (.finite "1"))]) = false :=
  ⟨rfl, rfl⟩

/-- Claim C1, amended: for the `src/unnamed/part_000` lineage (the one
with `cleanObject`), every string input that reaches the structural-JSON
branch and parses successfully in lenient mode yields the
`cleanObject`-stripped structure, which contains no object key literally
named `__proto__` at any depth; the `src/src/index.ts` lineage returns
the parsed structure unstripped. -/
theorem c1_clean_structural_parse (s : String) (j : JsValue)
    (h : reachesStructural2 s = true) (hp : jsonParse (jsTrim s) = some j) :
    synapse2 (.strV s) { strict := false } = .ok (cleanObject j) ∧
    noProtoV (cleanObject j) = true :=
  ⟨synapse2_structOk s j h hp, noProtoV_clean j⟩

/-- Claim C1, witness: `coerce('{"__proto__":{"polluted":true},"a":1}')`
under `part_000` yields a mapping containing only `a : 1`, without
raising. -/
theorem c1_witness :
    synapse2 (.strV "\x7b\"__proto__\":\x7b\"polluted\":true\x7d,\"a\":1\x7d")
        { strict := false } =
      .ok (.objV [("a", .numV (.finite "1"))]) ∧
    noProtoV (.objV [("a", .numV (.finite "1"))]) = true :=
  c1_clean_structural_parse "\x7b\"__proto__\":\x7b\"polluted\":true\x7d,\"a\":1\x7d"
    (.objV [("__proto__", .objV [("polluted", .boolV true)]), ("a", .numV (.finite "1"))])
    rfl rfl

/-- Claim C2, counterexample: an input can contain a `__proto__` key
pattern (quote, `__proto__`, quote, colon) and still not raise in strict
mode, because an earlier branch captures it before the structural branch
scans for the suspect patterns: `coerceStrict('"__proto__":1"')` matches
`suspectProtoRx` yet returns the quote-stripped string. -/
theorem c2_pattern_not_always_raised :
    suspectProtoTest "\"__proto__\":1\"" = true ∧
    synapse1 (.strV "\"__proto__\":1\"") { strict := true } =
      .ok (.strV "__proto__\":1") :=
  ⟨rfl, rfl⟩

/-- Claim C2, amended: in strict mode, an input that reaches the
structural-JSON branch and matches `suspectProtoRx` or
`suspectConstructorRx` (including `\uXXXX`-escaped spellings) raises the
`PossiblePrototypePollution` error, with no dependence on the outcome of
JSON parsing — `src/src/index.ts` scans the original input,
`src/unnamed/part_000` scans the trimmed input. -/
theorem c2_strict_pollution (s : String) :
    (reachesStructural1 s = true →
      (suspectProtoTest s || suspectConstructorTest s) = true →
      synapse1 (.strV s) { strict := true } = .error .protoPollution) ∧
    (reachesStructural2 s = true → checkPrototypePollution (jsTrim s) = true →
      synapse2 (.strV s) { strict := true } = .error .protoPollution) :=
  ⟨fun h hs => synapse1_strictPollution s h hs,
   fun h hs => synapse2_strictPollution s h hs⟩

/-- Claim C2, witness: `coerceStrict('{"__proto__":{"x":1}}')` and
`coerceStrict('{"__proto__":1}')` raise the
pollution error in both lineages, and so does the unparseable
`coerceStrict('{"__proto__":')` — the error precedes any parse. -/
theorem c2_witness :
    synapse1 (.strV "\x7b\"__proto__\":\x7b\"x\":1\x7d\x7d") { strict := true } =
      .error .protoPollution ∧
    synapse1 (.strV "\x7b\"\\u005f\\u005fproto\\u005f\\u005f\":1\x7d") { strict := true } =
      .error .protoPollution ∧
    synapse1 (.strV "\x7b\"__proto__\":") { strict := true } = .error .protoPollution ∧
    synapse2 (.strV "\x7b\"__proto__\":\x7b\"x\":1\x7d\x7d") { strict := true } =
      .error .protoPollution :=
  ⟨(c2_strict_pollution "\x7b\"__proto__\":\x7b\"x\":1\x7d\x7d").1 rfl rfl,
   (c2_strict_pollution "\x7b\"\\u005f\\u005fproto\\u005f\\u005f\":1\x7d").1 rfl rfl,
   (c2_strict_pollution "\x7b\"__proto__\":").1 rfl rfl,
   (c2_strict_pollution "\x7b\"__proto__\":\x7b\"x\":1\x7d\x7d").2 rfl rfl⟩

/-- Claim C3: with `strict` absent or false, both lineages always return
normally, and on every failure path — unparseable JSON in the structural
branch, unparseable text in `part_000`'s quote branch, or no branch
matched — the returned value is the original input string, untrimmed.
(The remaining failure path named by the specification, a rejected
bigint digit run, is unreachable: `BigInt` cannot fail on text matched
by `BIGINT_REGEX`, see `parseBigIntStr`.) -/
theorem c3_lenient_never_raises (v : JsValue) :
    (synapse1 v { strict := false }).isOk = true ∧
    (synapse2 v { strict := false }).isOk = true ∧
    (∀ s : String, v = .strV s →
      (noBranch1 s = true → synapse1 v { strict := false } = .ok v) ∧
      (reachesStructural1 s = true → jsonParse s = none →
        synapse1 v { strict := false } = .ok v) ∧
      (noBranch2 s = true → synapse2 v { strict := false } = .ok v) ∧
      (reachesStructural2 s = true → jsonParse (jsTrim s) = none →
        synapse2 v { strict := false } = .ok v) ∧
      (quoteParsePath2 s = true → jsonParse (jsTrim s) = none →
        synapse2 v { strict := false } = .ok v)) := by
  refine ⟨synapse1_lenient_isOk v, synapse2_lenient_isOk v, ?_⟩
  intro s hv
  subst hv
  exact ⟨synapse1_noBranch s, synapse1_structFail s, synapse2_noBranch s,
    synapse2_structFail s, synapse2_quoteFail s⟩

/-- Claim C3, witness: the no-branch input `"@x"` and the unparseable
structural candidate `"[1,"` come back unchanged in lenient mode. -/
theorem c3_witness :
    (synapse1 (.strV "@x") { strict := false }).isOk = true ∧
    synapse1 (.strV "@x") { strict := false } = .ok (.strV "@x") ∧
    synapse2 (.strV "@x") { strict := false } = .ok (.strV "@x") ∧
    synapse1 (.strV "[1,") { strict := false } = .ok (.strV "[1,") :=
  ⟨(c3_lenient_never_raises (.strV "@x")).1,
   ((c3_lenient_never_raises (.strV "@x")).2.2 "@x" rfl).1 rfl,
   ((c3_lenient_never_raises (.strV "@x")).2.2 "@x" rfl).2.2.1 rfl,
   ((c3_lenient_never_raises (.strV "[1,")).2.2 "[1," rfl).2.1 rfl rfl⟩

/-- Claim C4: evaluation at the failing inputs. In `src/src/index.ts`,
`coerce("null")` and `coerce("undefined")` return the original strings
(and strict mode throws `Invalid JSON`): the table maps both spellings to
the value `undefined`, which the guard `knownValue !== undefined` cannot
distinguish from a missing key, so those two table entries are dead. The
`part_000` lineage adds an explicit `lowerValue === "null" || lowerValue
=== "undefined"` escape hatch and returns `undefined` as the claim
states. -/
theorem c4_null_undefined_eval :
    synapse1 (.strV "null") { strict := false } = .ok (.strV "null") ∧
    synapse1 (.strV "undefined") { strict := false } = .ok (.strV "undefined") ∧
    synapse1 (.strV "null") { strict := true } = .error .invalidJson ∧
    synapse2 (.strV "null") { strict := false } = .ok .undefV ∧
    synapse2 (.strV "undefined") { strict := false } = .ok .undefV :=
  ⟨rfl, rfl, rfl, rfl, rfl⟩

/-- Claim C5: evaluation at the failing inputs. In `src/src/index.ts` the
case-sensitive lookup returns the `NaN` / `Infinity` / `-Infinity`
sentinels as the claim states; in `src/unnamed/part_000` the lookup key
is lowercased first, so the mixed-case table keys `NaN`, `Infinity` and
`-Infinity` are unreachable and the original strings come back. -/
theorem c5_special_numbers_eval :
    synapse1 (.strV "NaN") { strict := false } = .ok (.numV .nan) ∧
    synapse1 (.strV "Infinity") { strict := false } = .ok (.numV .posInf) ∧
    synapse1 (.strV "-Infinity") { strict := false } = .ok (.numV .negInf) ∧
    synapse2 (.strV "NaN") { strict := false } = .ok (.strV "NaN") ∧
    synapse2 (.strV "Infinity") { strict := false } = .ok (.strV "Infinity") ∧
    synapse2 (.strV "-Infinity") { strict := false } = .ok (.strV "-Infinity") :=
  ⟨rfl, rfl, rfl, rfl, rfl, rfl⟩

/-- Claim C6, counterexample: `src/unnamed/part_000` routes quote-wrapped
inputs through `JSON.parse`, which unescapes: the 6-character input
`"a\nb"` (with a literal backslash and `n`) coerces to the 3-character
string holding a real newline, not to the verbatim inner text `a\nb`. -/
theorem c6_part000_unescapes :
    synapse2 (.strV "\"a\\nb\"") { strict := false } = .ok (.strV "a\nb") ∧
    ("a\nb" : String) ≠ "a\\nb" :=
  ⟨rfl, by decide⟩

/-- Claim C6, amended: in `src/src/index.ts` only, every input whose
trimmed form is a quote, a nonempty middle, and a quote is coerced — in
either mode — to that middle verbatim, with no unescaping and without
the structural JSON parser; the `part_000` lineage instead JSON-parses
such inputs. -/
theorem c6_quote_verbatim (s : String) (opts : Options) (mid : List Char)
    (h : (jsTrim s).data = '"' :: mid ++ ['"']) (hm : mid ≠ []) :
    synapse1 (.strV s) opts = .ok (.strV ⟨mid⟩) := by
  have hq : (jsTrim s).data.head? = some '"' := by rw [h]; rfl
  have hkg := knownGet_quote (jsTrim s) hq
  have hknown : knownCond1 (jsTrim s) = false := by
    simp [knownCond1, hkg, isUndef]
  have hlen : utf16LenL (jsTrim s).data ≠ 2 := by
    rw [h]
    have hp := utf16LenL_pos mid hm
    simp [utf16LenL, utf16LenL_append]
    omega
  have hfirst : firstCharIs (jsTrim s) '"' = true := by simp [firstCharIs, hq]
  have hlast : lastCharIs (jsTrim s) '"' = true := by
    simp only [lastCharIs, h]
    rw [List.getLast?_concat]
    rfl
  have hc2 : (utf16LenL (jsTrim s).data == 2) = false := beq_eq_false_iff_ne.mpr hlen
  simp [synapse1, hknown, hc2, hfirst, hlast]
  rw [h]
  simp [List.dropLast_concat]

/-- Claim C6, witness: `coerce('"hello"')` yields `hello` verbatim in
`src/src/index.ts`. -/
theorem c6_witness :
    synapse1 (.strV "\"hello\"") { strict := false } = .ok (.strV "hello") :=
  c6_quote_verbatim "\"hello\"" { strict := false } "hello".data rfl (by decide)

/-- Claim C7, counterexample: `coerceStrict("12x3n")` raises the
structural parser's own error, not the bigint `Invalid BigInt`
(`MalformedLiteral`) error. -/
theorem c7_counterexample :
    synapse1 (.strV "12x3n") { strict := true } = .error .parseError ∧
    JsErr.parseError ≠ JsErr.invalidBigInt "12x3n" :=
  ⟨rfl, by decide⟩

/-- Claim C7, amended: `"12x3n"` does not match `BIGINT_REGEX`
(`^-?\d+n$`), so in both lineages it falls to the structural-JSON branch
and strict mode surfaces the JSON parse failure — an error distinct from
both the bigint `Invalid BigInt` error and the `Invalid JSON` fallback
error. -/
theorem c7_bigint_error_shape :
    bigintTest (jsTrim "12x3n").data = false ∧
    reachesStructural1 "12x3n" = true ∧
    synapse1 (.strV "12x3n") { strict := true } = .error .parseError ∧
    synapse2 (.strV "12x3n") { strict := true } = .error .parseError ∧
    JsErr.parseError ≠ JsErr.invalidBigInt "12x3n" ∧
    JsErr.parseError ≠ JsErr.invalidJson :=
  ⟨rfl, rfl, rfl, rfl, by decide, by decide⟩

/-- Claim C8: both lineages return every non-string input unchanged, for
every options record. -/
theorem c8_nonstring_identity (v : JsValue) (opts : Options)
    (h : ∀ s, v ≠ .strV s) :
    synapse1 v opts = .ok v ∧ synapse2 v opts = .ok v := by
  cases v with
  | strV s => exact absurd rfl (h s)
  | undefV => exact ⟨rfl, rfl⟩
  | nullV => exact ⟨rfl, rfl⟩
  | boolV b => exact ⟨rfl, rfl⟩
  | numV n => exact ⟨rfl, rfl⟩
  | bigIntV i => exact ⟨rfl, rfl⟩
  | arrV xs => exact ⟨rfl, rfl⟩
  | objV fs => exact ⟨rfl, rfl⟩

/-- Claim C8, witness: the boolean `true` passes through both lineages
even in strict mode. -/
theorem c8_witness :
    synapse1 (.boolV true) { strict := true } = .ok (.boolV true) ∧
    synapse2 (.boolV true) { strict := true } = .ok (.boolV true) :=
  c8_nonstring_identity (.boolV true) { strict := true }
    (fun _ hc => JsValue.noConfusion hc)

/-- Claim C9: the key-stripping walk removes exactly the keys literally
named `__proto__` (all other keys are retained with their values cleaned
recursively, in order), and `coerce('{"constructor":{"x":1}}')` in
lenient mode yields a mapping still containing the `constructor` key —
which the detection pattern does match, for warning purposes only. -/
theorem c9_strip_only_proto :
    (∀ fs : List (String × JsValue), cleanFields fs =
      (fs.filter (fun kv => !(kv.1 == "__proto__"))).map
        (fun kv => (kv.1, cleanObject kv.2))) ∧
    synapse2 (.strV "\x7b\"constructor\":\x7b\"x\":1\x7d\x7d") { strict := false } =
      .ok (.objV [("constructor", .objV [("x", .numV (.finite "1"))])]) ∧
    checkPrototypePollution (jsTrim "\x7b\"constructor\":\x7b\"x\":1\x7d\x7d") = true :=
  ⟨cleanFields_eq_filter, rfl, rfl⟩

/-- Claim C10: in `src/src/index.ts`, any input whose trimmed form has
UTF-16 length exactly 2 and starts with a double quote coerces to the
empty string, whatever its second character and whatever the mode. -/
theorem c10_two_char_quote (s : String) (opts : Options)
    (h2 : utf16LenL (jsTrim s).data = 2) (hq : (jsTrim s).data.head? = some '"') :
    synapse1 (.strV s) opts = .ok (.strV "") := by
  have hkg := knownGet_quote (jsTrim s) hq
  have hknown : knownCond1 (jsTrim s) = false := by
    simp [knownCond1, hkg, isUndef]
  have hfirst : firstCharIs (jsTrim s) '"' = true := by simp [firstCharIs, hq]
  simp [synapse1, hknown, hfirst, h2]

/-- Claim C10, witness: `coerce('"a')` and `coerceStrict('"a')` both
return the empty string. -/
theorem c10_witness :
    synapse1 (.strV "\"a") { strict := false } = .ok (.strV "") ∧
    synapse1 (.strV "\"a") { strict := true } = .ok (.strV "") :=
  ⟨c10_two_char_quote "\"a" { strict := false } rfl rfl,
   c10_two_char_quote "\"a" { strict := true } rfl rfl⟩
